import Mathlib

/-!
Shallow embedding of `src/corehost/cli/fxr/hostfxr.cpp` (the hostfxr
resolution-and-dispatch layer) and proofs of the specification claims.

External collaborators (`pal`, `sdk_resolver_t`, `fx_muxer_t`, `sdk_info`,
the loaded hostpolicy module) are modelled as parameters describing their
observable outcomes; the control flow of every function in `hostfxr.cpp`
is translated statement by statement.  Observable side effects (filesystem
probes, OS library loads, symbol lookups, resolver/muxer delegation, the
module entry-point calls, native unload, tracing) are recorded as an
ordered event list so that sequencing claims can be stated.
-/

namespace HostFxr

-- Status codes from `error_codes.h` (stable ABI values; `hostfxr.cpp`
-- documents `SdkResolverResolveFailure = 0x8000809b` and
-- `HostApiBufferTooSmall = 0x80008098` in its comments).
namespace StatusCode

def Success : Int := 0
def InvalidArgFailure : Int := 0x80008081
def CoreHostLibLoadFailure : Int := 0x80008082
def CoreHostLibMissingFailure : Int := 0x80008083
def CoreHostEntryPointFailure : Int := 0x80008084
def SdkResolverResolveFailure : Int := 0x8000809b
def HostApiBufferTooSmall : Int := 0x80008098

end StatusCode

/-- Observable side effects of the hostfxr layer, in program order.
`fsLibraryCheck` is `library_exists_in_dir`, `osLoadLibrary` is
`pal::load_library`, `symbolLookup` is `pal::get_symbol`,
`resolverResolve` is `sdk_resolver_t::resolve_sdk_dotnet_path`,
`muxerExecute` is `fx_muxer_t::execute`, `hostLoad`/`hostMain`/`hostUnload`
are calls into the loaded module's entry points, and `osUnloadLibrary` is
`pal::unload_library`. -/
inductive Effect where
  | traceSetup
  | traceInfo
  | traceError
  | traceFlush
  | fsLibraryCheck
  | osLoadLibrary
  | symbolLookup (sym : String)
  | resolverResolve
  | muxerExecute
  | hostLoad
  | hostMain
  | hostUnload
  | osUnloadLibrary
  deriving DecidableEq

/-- Environment of one library-loading attempt: what the external `pal`
calls would report for the directory `lib_dir` passed to the loader.
`libraryFileExists` is the outcome of `library_exists_in_dir(lib_dir,
LIBHOSTPOLICY_NAME, ...)`, `osLoadSucceeds` the outcome of
`pal::load_library`, and the four `has*Symbol` fields record whether
`pal::get_symbol` returns a non-null pointer for the corresponding
exported symbol. -/
structure LibEnv where
  libraryFileExists : Bool
  osLoadSucceeds : Bool
  hasLoadSymbol : Bool
  hasUnloadSymbol : Bool
  hasMainSymbol : Bool
  hasMainWithOutputSymbol : Bool
  deriving DecidableEq

/-- Embedding of `load_host_library_common` (hostfxr.cpp lines 21-47):
check the file, load the library, resolve `corehost_load` and
`corehost_unload`, succeed only when both are non-null.  Returns the
status code and the ordered list of observable effects. -/
def load_host_library_common (env : LibEnv) : Int × List Effect :=
  if !env.libraryFileExists then
    (StatusCode.CoreHostLibMissingFailure, [Effect.fsLibraryCheck])
  else if !env.osLoadSucceeds then
    (StatusCode.CoreHostLibLoadFailure,
      [Effect.fsLibraryCheck, Effect.osLoadLibrary, Effect.traceInfo])
  else
    ((if env.hasLoadSymbol && env.hasUnloadSymbol then
        StatusCode.Success
      else
        StatusCode.CoreHostEntryPointFailure),
      [Effect.fsLibraryCheck, Effect.osLoadLibrary,
       Effect.symbolLookup "corehost_load", Effect.symbolLookup "corehost_unload"])

/-- Embedding of `load_host_library` (lines 49-69): run the common part,
then resolve `corehost_main` and fail with `CoreHostEntryPointFailure`
when it is null. -/
def load_host_library (env : LibEnv) : Int × List Effect :=
  let r := load_host_library_common env
  if r.1 ≠ StatusCode.Success then r
  else
    ((if env.hasMainSymbol then
        StatusCode.Success
      else
        StatusCode.CoreHostEntryPointFailure),
      r.2 ++ [Effect.symbolLookup "corehost_main"])

/-- Embedding of `load_host_library_with_return` (lines 71-91): the common
part followed by resolution of `corehost_main_with_output_buffer`. -/
def load_host_library_with_return (env : LibEnv) : Int × List Effect :=
  let r := load_host_library_common env
  if r.1 ≠ StatusCode.Success then r
  else
    ((if env.hasMainWithOutputSymbol then
        StatusCode.Success
      else
        StatusCode.CoreHostEntryPointFailure),
      r.2 ++ [Effect.symbolLookup "corehost_main_with_output_buffer"])

/-- Behavior of the loaded hostpolicy module's entry points for one call:
the int returned by `corehost_load(&intf)`, by `corehost_main(argc, argv)`
and by `corehost_main_with_output_buffer(...)`. -/
structure HostModule where
  loadResult : Int
  mainResult : Int
  mainWithOutputResult : Int
  deriving DecidableEq

/-- Embedding of `execute_app` (lines 93-124): load the library with the
exit-code convention; on loader failure trace an error and return; else
flush traces, call `host_load`, and only when it returns 0 call
`host_main` then `host_unload`; finally `pal::unload_library` always runs
before returning. -/
def execute_app (env : LibEnv) (m : HostModule) : Int × List Effect :=
  let r := load_host_library env
  if r.1 ≠ StatusCode.Success then
    (r.1, r.2 ++ [Effect.traceError])
  else if m.loadResult = 0 then
    (m.mainResult,
      r.2 ++ [Effect.traceFlush, Effect.hostLoad, Effect.hostMain,
              Effect.hostUnload, Effect.osUnloadLibrary])
  else
    (m.loadResult,
      r.2 ++ [Effect.traceFlush, Effect.hostLoad, Effect.osUnloadLibrary])

/-- Embedding of `execute_host_command` (lines 126-161): identical
sequencing to `execute_app` but through
`load_host_library_with_return` and the buffer-returning `host_main`. -/
def execute_host_command (env : LibEnv) (m : HostModule) : Int × List Effect :=
  let r := load_host_library_with_return env
  if r.1 ≠ StatusCode.Success then
    (r.1, r.2 ++ [Effect.traceError])
  else if m.loadResult = 0 then
    (m.mainWithOutputResult,
      r.2 ++ [Effect.traceFlush, Effect.hostLoad, Effect.hostMain,
              Effect.hostUnload, Effect.osUnloadLibrary])
  else
    (m.loadResult,
      r.2 ++ [Effect.traceFlush, Effect.hostLoad, Effect.osUnloadLibrary])

/-- The environment in which every load attempt fully succeeds. -/
def allGoodEnv : LibEnv := ⟨true, true, true, true, true, true⟩

/-- The embedded null character written as a string terminator
(`buffer[length] = 0`). -/
def nullChar : Char := Char.ofNat 0

/-- Effect of `cli_sdk.copy(buffer, buffer_size - 1)` followed by
`buffer[length] = 0` on a caller buffer `buf`, for a string `s` with
`s.length < buffer_size`: the first `s.length` cells hold `s`, the next
cell holds the terminator, and every cell beyond `s.length + 1` keeps its
previous contents. -/
def bufWrite (buf : List Char) (s : List Char) : List Char :=
  s ++ nullChar :: buf.drop (s.length + 1)

/-- Embedding of `hostfxr_resolve_sdk` (lines 231-277).  The external
`sdk_resolver_t::resolve_sdk_dotnet_path` is the parameter `resolve`
(deterministic for fixed filesystem state): `none` models returning
`false` (SDK not found), `some path` models success with `cli_sdk = path`.
Null pointers are modelled as `none`; a null `exe_dir`/`working_dir` is
normalized to the empty string exactly as in the source.  Returns the
int32 result, the caller buffer after the call, and the effect list. -/
def hostfxr_resolve_sdk
    (resolve : List Char → List Char → Option (List Char))
    (exe_dir working_dir : Option (List Char))
    (buffer : Option (List Char)) (buffer_size : Int) :
    Int × Option (List Char) × List Effect :=
  if buffer_size < 0 ∨ (buffer_size > 0 ∧ buffer = none) then
    (-1, buffer, [Effect.traceSetup, Effect.traceInfo, Effect.traceError])
  else
    match resolve (exe_dir.getD []) (working_dir.getD []) with
    | none =>
        (0, buffer, [Effect.traceSetup, Effect.traceInfo, Effect.resolverResolve])
    | some cli_sdk =>
        if (cli_sdk.length : Int) < buffer_size then
          ((cli_sdk.length : Int) + 1,
            buffer.map (fun b => bufWrite b cli_sdk),
            [Effect.traceSetup, Effect.traceInfo, Effect.resolverResolve])
        else
          ((cli_sdk.length : Int) + 1, buffer,
            [Effect.traceSetup, Effect.traceInfo, Effect.resolverResolve,
             Effect.traceInfo])

/-- Embedding of `hostfxr_get_native_search_directories` (lines 498-516).
The external `fx_muxer_t::execute` (with the fixed command
`get-native-search-directories` and the argc/argv of the call) is the
parameter `muxer`, a function of the caller buffer and its size returning
the status code, the buffer after the call, and the written required
size.  Validation precedes any delegation, exactly as in the source. -/
def hostfxr_get_native_search_directories
    (muxer : Option (List Char) → Int → Int × Option (List Char) × Option Int)
    (buffer : Option (List Char)) (buffer_size : Int)
    (required_buffer_size : Option Int) :
    Int × Option (List Char) × Option Int × List Effect :=
  if buffer_size < 0 ∨ (buffer_size > 0 ∧ buffer = none) ∨
      required_buffer_size = none then
    (StatusCode.InvalidArgFailure, buffer, required_buffer_size,
      [Effect.traceSetup, Effect.traceInfo, Effect.traceError])
  else
    let r := muxer buffer buffer_size
    (r.1, r.2.1, r.2.2,
      [Effect.traceSetup, Effect.traceInfo, Effect.muxerExecute])

/-- The two result keys of `hostfxr_resolve_sdk2_result_key_t`. -/
inductive Sdk2Key where
  | resolved_sdk_dir
  | global_json_path
  deriving DecidableEq

/-- Outcome of the external five-argument
`sdk_resolver_t::resolve_sdk_dotnet_path` overload: its boolean result and
the two output strings it fills. -/
structure SdkResolveOutcome where
  success : Bool
  resolved_sdk_dir : List Char
  global_json_path : List Char
  deriving DecidableEq

/-- The resolver outcome seen by a `hostfxr_resolve_sdk2` call: null
directories are normalized to the empty string, and bit 0 of `flags`
(`hostfxr_resolve_sdk2_flags_t::disallow_prerelease`) is passed to the
resolver.  `flags` carries the int32 bit pattern. -/
def sdk2_outcome
    (resolve2 : List Char → List Char → Bool → SdkResolveOutcome)
    (exe_dir working_dir : Option (List Char)) (flags : Nat) :
    SdkResolveOutcome :=
  resolve2 (exe_dir.getD []) (working_dir.getD []) (flags.land 1 != 0)

/-- Embedding of `hostfxr_resolve_sdk2` (lines 346-393): run the resolver;
on success invoke the callback with `resolved_sdk_dir`; whenever the
reported `global_json_path` is non-empty invoke the callback with
`global_json_path`; return `Success` or `SdkResolverResolveFailure`.
Returns the status code and the ordered callback invocation list. -/
def hostfxr_resolve_sdk2
    (resolve2 : List Char → List Char → Bool → SdkResolveOutcome)
    (exe_dir working_dir : Option (List Char)) (flags : Nat) :
    Int × List (Sdk2Key × List Char) :=
  let o := sdk2_outcome resolve2 exe_dir working_dir flags
  ((if o.success then StatusCode.Success else StatusCode.SdkResolverResolveFailure),
    (if o.success then [(Sdk2Key.resolved_sdk_dir, o.resolved_sdk_dir)] else [])
      ++ (if !o.global_json_path.isEmpty then
            [(Sdk2Key.global_json_path, o.global_json_path)]
          else []))

/-- Modelled from the spec: the SDK Resolver collaborator
(`sdk_resolver_t::resolve_sdk_dotnet_path`, whose implementation is not
part of this layer's sources) implements global.json discovery and, per
the spec and the API comment in `hostfxr.cpp`, reports a non-empty
`global_json_path` exactly when a discovered global.json actually
constrained the resolution outcome; a global.json can only constrain the
outcome when one is present.  `globalJsonPresent` records whether a
global.json was discovered and `constrainedOutcome` whether it
constrained the outcome. -/
structure ResolverGlobalJsonContract (o : SdkResolveOutcome)
    (globalJsonPresent constrainedOutcome : Bool) : Prop where
  path_iff_constrained : o.global_json_path ≠ [] ↔ constrainedOutcome = true
  constrained_implies_present : constrainedOutcome = true → globalJsonPresent = true

/-- A parsed semantic version as in `fx_ver.h`: major.minor.patch plus an
optional prerelease label (`none` = release). -/
structure fx_ver_t where
  major : Nat
  minor : Nat
  patch : Nat
  pre : Option (List Char)
  deriving DecidableEq

/-- Lexicographic sort key of a prerelease tag: a release (no tag) orders
after every prerelease of the same numeric version. -/
def preKey : Option (List Char) → Lex (Nat × List Nat)
  | some tag => toLex (0, tag.map Char.toNat)
  | none => toLex (1, [])

/-- Lexicographic sort key of a semantic version. -/
def verKey (v : fx_ver_t) : Lex (Nat × Lex (Nat × Lex (Nat × Lex (Nat × List Nat)))) :=
  toLex (v.major, toLex (v.minor, toLex (v.patch, preKey v.pre)))

/-- Semantic-version order (`fx_ver_t::operator ≤`): numeric fields
lexicographically, then release after prerelease, prereleases by label. -/
def verLe (a b : fx_ver_t) : Prop := verKey a ≤ verKey b

instance : DecidableRel verLe := fun a b =>
  inferInstanceAs (Decidable (verKey a ≤ verKey b))

instance : IsTotal fx_ver_t verLe := ⟨fun a b => le_total (verKey a) (verKey b)⟩

instance : IsTrans fx_ver_t verLe := ⟨fun _ _ _ h₁ h₂ => le_trans h₁ h₂⟩

/-- An `sdk_info` record: the SDK's directory path and its parsed
semantic version. -/
structure sdk_info where
  full_path : List Char
  version : fx_ver_t
  deriving DecidableEq

/-- Order used for SDK enumeration: by semantic version. -/
def sdkLe (a b : sdk_info) : Prop := verLe a.version b.version

instance : DecidableRel sdkLe := fun a b =>
  inferInstanceAs (Decidable (verLe a.version b.version))

instance : IsTotal sdk_info sdkLe :=
  ⟨fun a b => le_total (verKey a.version) (verKey b.version)⟩

instance : IsTrans sdk_info sdkLe := ⟨fun _ _ _ h₁ h₂ => le_trans h₁ h₂⟩

/-- Modelled from the spec: `sdk_info::get_all_sdk_infos` (not part of
this layer's sources) discovers the installed SDKs under `exe_dir` and
fills the vector with them ordered by ascending semantic version.  The
discovered (unordered) SDK set is the parameter; this definition supplies
the ordering guarantee the spec and the API comment state. -/
def get_all_sdk_infos (discovered : List sdk_info) : List sdk_info :=
  List.insertionSort sdkLe discovered

/-- Embedding of `hostfxr_get_available_sdks` (lines 422-456): enumerate
the SDKs; if none, invoke the callback once with `(0, nullptr)`; else
invoke it once with the count and the array of their paths; return
`Success`.  The second component is the ordered callback invocation list,
an invocation being the passed count and the passed array (`none` =
nullptr). -/
def hostfxr_get_available_sdks (discovered : List sdk_info) :
    Int × List (Int × Option (List (List Char))) :=
  let sdk_infos := get_all_sdk_infos discovered
  (StatusCode.Success,
    if sdk_infos.isEmpty then
      [((0 : Int), (none : Option (List (List Char))))]
    else
      [((sdk_infos.length : Int), some (sdk_infos.map sdk_info.full_path))])

/-- Both dispatch loaders succeed exactly when the file exists, the OS
load succeeds, and all required symbols (including the calling-convention
specific one) resolve. -/
theorem load_success_iff (env : LibEnv) :
    ((load_host_library env).1 = StatusCode.Success ↔
      env.libraryFileExists = true ∧ env.osLoadSucceeds = true ∧
      env.hasLoadSymbol = true ∧ env.hasUnloadSymbol = true ∧
      env.hasMainSymbol = true) ∧
    ((load_host_library_with_return env).1 = StatusCode.Success ↔
      env.libraryFileExists = true ∧ env.osLoadSucceeds = true ∧
      env.hasLoadSymbol = true ∧ env.hasUnloadSymbol = true ∧
      env.hasMainWithOutputSymbol = true) := by
  rcases env with ⟨f, o, l, u, m, mo⟩
  cases f <;> cases o <;> cases l <;> cases u <;> cases m <;> cases mo <;> decide

/-- An environment in which both loaders succeed is `allGoodEnv`. -/
theorem load_success_env (env : LibEnv)
    (happ : (load_host_library env).1 = StatusCode.Success)
    (hcmd : (load_host_library_with_return env).1 = StatusCode.Success) :
    env = allGoodEnv := by
  rcases env with ⟨f, o, l, u, m, mo⟩
  revert happ hcmd
  cases f <;> cases o <;> cases l <;> cases u <;> cases m <;> cases mo <;> decide

/-- In the all-good environment, `execute_app` when the module rejects
initialization. -/
theorem execute_app_load_fails (m : HostModule) (h : ¬m.loadResult = 0) :
    (execute_app allGoodEnv m).1 = m.loadResult ∧
    (execute_app allGoodEnv m).2 =
        [Effect.fsLibraryCheck, Effect.osLoadLibrary,
         Effect.symbolLookup "corehost_load", Effect.symbolLookup "corehost_unload",
         Effect.symbolLookup "corehost_main", Effect.traceFlush,
         Effect.hostLoad, Effect.osUnloadLibrary] := by
  have h1 : load_host_library allGoodEnv =
      (StatusCode.Success,
        [Effect.fsLibraryCheck, Effect.osLoadLibrary,
         Effect.symbolLookup "corehost_load", Effect.symbolLookup "corehost_unload",
         Effect.symbolLookup "corehost_main"]) := by decide
  simp [execute_app, h1, h]

/-- In the all-good environment, `execute_app` when the module accepts
initialization. -/
theorem execute_app_load_succeeds (m : HostModule) (h : m.loadResult = 0) :
    (execute_app allGoodEnv m).1 = m.mainResult ∧
    (execute_app allGoodEnv m).2 =
        [Effect.fsLibraryCheck, Effect.osLoadLibrary,
         Effect.symbolLookup "corehost_load", Effect.symbolLookup "corehost_unload",
         Effect.symbolLookup "corehost_main", Effect.traceFlush,
         Effect.hostLoad, Effect.hostMain, Effect.hostUnload,
         Effect.osUnloadLibrary] := by
  have h1 : load_host_library allGoodEnv =
      (StatusCode.Success,
        [Effect.fsLibraryCheck, Effect.osLoadLibrary,
         Effect.symbolLookup "corehost_load", Effect.symbolLookup "corehost_unload",
         Effect.symbolLookup "corehost_main"]) := by decide
  simp [execute_app, h1, h]

/-- In the all-good environment, `execute_host_command` when the module
rejects initialization. -/
theorem execute_host_command_load_fails (m : HostModule) (h : ¬m.loadResult = 0) :
    (execute_host_command allGoodEnv m).1 = m.loadResult ∧
    (execute_host_command allGoodEnv m).2 =
        [Effect.fsLibraryCheck, Effect.osLoadLibrary,
         Effect.symbolLookup "corehost_load", Effect.symbolLookup "corehost_unload",
         Effect.symbolLookup "corehost_main_with_output_buffer", Effect.traceFlush,
         Effect.hostLoad, Effect.osUnloadLibrary] := by
  have h1 : load_host_library_with_return allGoodEnv =
      (StatusCode.Success,
        [Effect.fsLibraryCheck, Effect.osLoadLibrary,
         Effect.symbolLookup "corehost_load", Effect.symbolLookup "corehost_unload",
         Effect.symbolLookup "corehost_main_with_output_buffer"]) := by decide
  simp [execute_host_command, h1, h]

/-- In the all-good environment, `execute_host_command` when the module
accepts initialization. -/
theorem execute_host_command_load_succeeds (m : HostModule) (h : m.loadResult = 0) :
    (execute_host_command allGoodEnv m).1 = m.mainWithOutputResult ∧
    (execute_host_command allGoodEnv m).2 =
        [Effect.fsLibraryCheck, Effect.osLoadLibrary,
         Effect.symbolLookup "corehost_load", Effect.symbolLookup "corehost_unload",
         Effect.symbolLookup "corehost_main_with_output_buffer", Effect.traceFlush,
         Effect.hostLoad, Effect.hostMain, Effect.hostUnload,
         Effect.osUnloadLibrary] := by
  have h1 : load_host_library_with_return allGoodEnv =
      (StatusCode.Success,
        [Effect.fsLibraryCheck, Effect.osLoadLibrary,
         Effect.symbolLookup "corehost_load", Effect.symbolLookup "corehost_unload",
         Effect.symbolLookup "corehost_main_with_output_buffer"]) := by decide
  simp [execute_host_command, h1, h]

/-- C1: in every execution-dispatch call (`execute_app` and
`execute_host_command`) whose library loads and whose entry points all
resolve, a non-zero return from the module's `load` entry point means
`main` is never invoked and `unload` is never invoked, yet
`pal::unload_library` still runs before the call returns; a zero return
from `load` means `load`, `main`, `unload` and the native unload all run,
in that order, regardless of `main`'s result. -/
theorem c1_dispatch_sequencing (env : LibEnv) (m : HostModule)
    (happ : (load_host_library env).1 = StatusCode.Success)
    (hcmd : (load_host_library_with_return env).1 = StatusCode.Success) :
    (m.loadResult ≠ 0 →
      (Effect.hostMain ∉ (execute_app env m).2 ∧
        Effect.hostUnload ∉ (execute_app env m).2 ∧
        Effect.osUnloadLibrary ∈ (execute_app env m).2) ∧
      (Effect.hostMain ∉ (execute_host_command env m).2 ∧
        Effect.hostUnload ∉ (execute_host_command env m).2 ∧
        Effect.osUnloadLibrary ∈ (execute_host_command env m).2)) ∧
    (m.loadResult = 0 →
      List.Sublist
        [Effect.hostLoad, Effect.hostMain, Effect.hostUnload, Effect.osUnloadLibrary]
        (execute_app env m).2 ∧
      List.Sublist
        [Effect.hostLoad, Effect.hostMain, Effect.hostUnload, Effect.osUnloadLibrary]
        (execute_host_command env m).2) := by
  have henv := load_success_env env happ hcmd
  subst henv
  constructor
  · intro hne
    rw [(execute_app_load_fails m hne).2, (execute_host_command_load_fails m hne).2]
    exact ⟨⟨by decide, by decide, by decide⟩, by decide, by decide, by decide⟩
  · intro hz
    rw [(execute_app_load_succeeds m hz).2, (execute_host_command_load_succeeds m hz).2]
    exact ⟨by decide, by decide⟩

/-- C1 witness: concrete run with `load` returning 2 in the fully
resolving environment. -/
theorem c1_dispatch_sequencing_witness :
    Effect.hostMain ∉ (execute_app allGoodEnv ⟨2, 5, 6⟩).2 ∧
    Effect.hostUnload ∉ (execute_app allGoodEnv ⟨2, 5, 6⟩).2 ∧
    Effect.osUnloadLibrary ∈ (execute_app allGoodEnv ⟨2, 5, 6⟩).2 ∧
    Effect.hostMain ∉ (execute_host_command allGoodEnv ⟨2, 5, 6⟩).2 := by
  have h := c1_dispatch_sequencing allGoodEnv ⟨2, 5, 6⟩ (by decide) (by decide)
  have h2 := h.1 (by decide)
  exact ⟨h2.1.1, h2.1.2.1, h2.1.2.2, h2.2.1⟩

/-- C8: after the module file is found and the OS load succeeds,
`load_host_library_common` returns `Success` exactly when both
`corehost_load` and `corehost_unload` resolve, and `EntryPointFailure`
when either is missing; the convention-specific entry point
(`corehost_main` / `corehost_main_with_output_buffer`) is validated by
the separate subsequent check in `load_host_library` /
`load_host_library_with_return`. -/
theorem c8_entry_points_all_or_nothing (env : LibEnv)
    (hfile : env.libraryFileExists = true) (hos : env.osLoadSucceeds = true) :
    ((load_host_library_common env).1 = StatusCode.Success ↔
      env.hasLoadSymbol = true ∧ env.hasUnloadSymbol = true) ∧
    (¬(env.hasLoadSymbol = true ∧ env.hasUnloadSymbol = true) →
      (load_host_library_common env).1 = StatusCode.CoreHostEntryPointFailure) ∧
    ((load_host_library env).1 = StatusCode.Success ↔
      (load_host_library_common env).1 = StatusCode.Success ∧
        env.hasMainSymbol = true) ∧
    ((load_host_library_with_return env).1 = StatusCode.Success ↔
      (load_host_library_common env).1 = StatusCode.Success ∧
        env.hasMainWithOutputSymbol = true) := by
  rcases env with ⟨f, o, l, u, m, mo⟩
  revert hfile hos
  cases f <;> cases o <;> cases l <;> cases u <;> cases m <;> cases mo <;> decide

/-- C8 witness: environment with `corehost_unload` missing. -/
theorem c8_entry_points_all_or_nothing_witness :
    (load_host_library_common ⟨true, true, true, false, true, true⟩).1 =
      StatusCode.CoreHostEntryPointFailure := by
  have h := c8_entry_points_all_or_nothing ⟨true, true, true, false, true, true⟩
    (by decide) (by decide)
  exact h.2.1 (by decide)

/-- C9: a missing module file yields `CoreHostLibMissingFailure` with no
OS load and no symbol lookup; `CoreHostLibLoadFailure` occurs exactly
when the file was found but the OS loader rejected it (and then no symbol
lookup happens); `CoreHostEntryPointFailure` occurs exactly when the load
succeeded but a required symbol was absent. -/
theorem c9_loader_failure_classes (env : LibEnv) :
    (env.libraryFileExists = false →
      (load_host_library_common env).1 = StatusCode.CoreHostLibMissingFailure ∧
      Effect.osLoadLibrary ∉ (load_host_library_common env).2 ∧
      ∀ s, Effect.symbolLookup s ∉ (load_host_library_common env).2) ∧
    ((load_host_library_common env).1 = StatusCode.CoreHostLibLoadFailure ↔
      env.libraryFileExists = true ∧ env.osLoadSucceeds = false) ∧
    (env.libraryFileExists = true ∧ env.osLoadSucceeds = false →
      ∀ s, Effect.symbolLookup s ∉ (load_host_library_common env).2) ∧
    ((load_host_library_common env).1 = StatusCode.CoreHostEntryPointFailure ↔
      env.libraryFileExists = true ∧ env.osLoadSucceeds = true ∧
      ¬(env.hasLoadSymbol = true ∧ env.hasUnloadSymbol = true)) := by
  rcases env with ⟨f, o, l, u, m, mo⟩
  cases f <;> cases o <;> cases l <;> cases u <;> cases m <;> cases mo <;>
    simp [load_host_library_common, StatusCode.CoreHostLibMissingFailure,
      StatusCode.CoreHostLibLoadFailure, StatusCode.CoreHostEntryPointFailure,
      StatusCode.Success]

/-- C9 witness: directory without the hosting-policy module. -/
theorem c9_loader_failure_classes_witness :
    (load_host_library_common ⟨false, true, true, true, true, true⟩).1 =
      StatusCode.CoreHostLibMissingFailure ∧
    Effect.osLoadLibrary ∉
      (load_host_library_common ⟨false, true, true, true, true, true⟩).2 ∧
    Effect.symbolLookup "corehost_load" ∉
      (load_host_library_common ⟨false, true, true, true, true, true⟩).2 := by
  have h := (c9_loader_failure_classes ⟨false, true, true, true, true, true⟩).1
    (by decide)
  exact ⟨h.1, h.2.1, h.2.2 "corehost_load"⟩

/-- The written prefix of a buffer after a successful copy is the path
followed by the null terminator. -/
theorem bufWrite_take (b s : List Char) :
    (bufWrite b s).take (s.length + 1) = s ++ [nullChar] := by
  simp [bufWrite, List.take_append]

/-- Invalid arguments short-circuit `hostfxr_resolve_sdk` to `-1` with
only tracing performed. -/
theorem resolve_sdk_invalid
    (resolve : List Char → List Char → Option (List Char))
    (exe_dir working_dir buffer : Option (List Char)) (buffer_size : Int)
    (hbad : buffer_size < 0 ∨ (buffer_size > 0 ∧ buffer = none)) :
    hostfxr_resolve_sdk resolve exe_dir working_dir buffer buffer_size =
      (-1, buffer, [Effect.traceSetup, Effect.traceInfo, Effect.traceError]) := by
  simp [hostfxr_resolve_sdk, if_pos hbad]

/-- Invalid arguments short-circuit `hostfxr_get_native_search_directories`
to `InvalidArgFailure` with only tracing performed. -/
theorem get_native_search_directories_invalid
    (muxer : Option (List Char) → Int → Int × Option (List Char) × Option Int)
    (buffer : Option (List Char)) (buffer_size : Int) (req : Option Int)
    (hbad : buffer_size < 0 ∨ (buffer_size > 0 ∧ buffer = none) ∨ req = none) :
    hostfxr_get_native_search_directories muxer buffer buffer_size req =
      (StatusCode.InvalidArgFailure, buffer, req,
        [Effect.traceSetup, Effect.traceInfo, Effect.traceError]) := by
  simp [hostfxr_get_native_search_directories, if_pos hbad]

/-- Capacity case analysis of `hostfxr_resolve_sdk` once the resolver has
found a path: overflowing capacity leaves the buffer untouched, fitting
capacity writes the null-terminated path; the required capacity is
returned either way. -/
theorem resolve_sdk_capacity_frame
    (resolve : List Char → List Char → Option (List Char))
    (exe_dir working_dir buffer : Option (List Char)) (buffer_size : Int)
    (path : List Char)
    (hbs : 0 ≤ buffer_size)
    (hbuf : 0 < buffer_size → buffer ≠ none)
    (hres : resolve (exe_dir.getD []) (working_dir.getD []) = some path) :
    (buffer_size < (path.length : Int) + 1 →
      (hostfxr_resolve_sdk resolve exe_dir working_dir buffer buffer_size).1 =
        (path.length : Int) + 1 ∧
      (hostfxr_resolve_sdk resolve exe_dir working_dir buffer buffer_size).2.1 =
        buffer) ∧
    ((path.length : Int) + 1 ≤ buffer_size →
      ∃ b, buffer = some b ∧
        (hostfxr_resolve_sdk resolve exe_dir working_dir buffer buffer_size).1 =
          (path.length : Int) + 1 ∧
        (hostfxr_resolve_sdk resolve exe_dir working_dir buffer buffer_size).2.1 =
          some (bufWrite b path) ∧
        (bufWrite b path).take (path.length + 1) = path ++ [nullChar]) := by
  have hvalid : ¬(buffer_size < 0 ∨ (buffer_size > 0 ∧ buffer = none)) := by
    push_neg
    exact ⟨by omega, fun h => hbuf h⟩
  constructor
  · intro hgt
    have hlt : ¬((path.length : Int) < buffer_size) := by omega
    simp [hostfxr_resolve_sdk, if_neg hvalid, hres, if_neg hlt]
  · intro hle
    have hpos : 0 < buffer_size := by
      have : (0 : Int) ≤ (path.length : Int) := Int.ofNat_nonneg _
      omega
    obtain ⟨b, hb⟩ : ∃ b, buffer = some b := by
      cases hbuffer : buffer with
      | none => exact absurd hbuffer (hbuf hpos)
      | some b => exact ⟨b, rfl⟩
    have hlt : (path.length : Int) < buffer_size := by omega
    refine ⟨b, hb, ?_⟩
    subst hb
    simp [hostfxr_resolve_sdk, if_neg hvalid, hres, if_pos hlt, bufWrite_take,
      show ¬buffer_size < 0 from by omega]

/-- C2: in a `hostfxr_resolve_sdk` call that reaches the resolver and
finds an SDK path, if the required capacity (length plus terminator)
exceeds `buffer_size` then the caller's buffer is returned completely
unmodified and the required capacity is the return value; if the required
capacity fits, the path is copied and null-terminated into the buffer and
the same required capacity is returned. -/
theorem c2_buffer_capacity_frame
    (resolve : List Char → List Char → Option (List Char))
    (exe_dir working_dir buffer : Option (List Char)) (buffer_size : Int)
    (path : List Char)
    (hbs : 0 ≤ buffer_size)
    (hbuf : 0 < buffer_size → buffer ≠ none)
    (hres : resolve (exe_dir.getD []) (working_dir.getD []) = some path) :
    (buffer_size < (path.length : Int) + 1 →
      (hostfxr_resolve_sdk resolve exe_dir working_dir buffer buffer_size).1 =
        (path.length : Int) + 1 ∧
      (hostfxr_resolve_sdk resolve exe_dir working_dir buffer buffer_size).2.1 =
        buffer) ∧
    ((path.length : Int) + 1 ≤ buffer_size →
      ∃ b, buffer = some b ∧
        (hostfxr_resolve_sdk resolve exe_dir working_dir buffer buffer_size).1 =
          (path.length : Int) + 1 ∧
        (hostfxr_resolve_sdk resolve exe_dir working_dir buffer buffer_size).2.1 =
          some (bufWrite b path) ∧
        (bufWrite b path).take (path.length + 1) = path ++ [nullChar]) :=
  resolve_sdk_capacity_frame resolve exe_dir working_dir buffer buffer_size path
    hbs hbuf hres

/-- C2 witness: path `ab` needs capacity 3; a buffer of size 2 is left
untouched, a buffer of size 3 receives `ab` plus the terminator. -/
theorem c2_buffer_capacity_frame_witness :
    (hostfxr_resolve_sdk (fun _ _ => some ['a', 'b']) none none
        (some ['x', 'y']) 2).1 = 3 ∧
    (hostfxr_resolve_sdk (fun _ _ => some ['a', 'b']) none none
        (some ['x', 'y']) 2).2.1 = some ['x', 'y'] ∧
    (hostfxr_resolve_sdk (fun _ _ => some ['a', 'b']) none none
        (some ['x', 'y', 'z']) 3).2.1 = some ['a', 'b', nullChar] := by
  have h1 := c2_buffer_capacity_frame (fun _ _ => some ['a', 'b']) none none
    (some ['x', 'y']) 2 ['a', 'b'] (by decide) (fun _ => by decide) rfl
  have h2 := c2_buffer_capacity_frame (fun _ _ => some ['a', 'b']) none none
    (some ['x', 'y', 'z']) 3 ['a', 'b'] (by decide) (fun _ => by decide) rfl
  have h1f := h1.1 (by decide)
  obtain ⟨b, hb, _, hw, _⟩ := h2.2 (by decide)
  refine ⟨h1f.1, h1f.2, ?_⟩
  rw [hw]
  cases hb
  decide

/-- C3: with a negative `buffer_size`, or a positive `buffer_size` and a
null buffer, `hostfxr_resolve_sdk` returns its invalid-argument code `-1`
having performed only tracing — no resolver call, no buffer write; under
the same conditions, or with a null `required_buffer_size`,
`hostfxr_get_native_search_directories` returns `InvalidArgFailure`
having performed only tracing — no muxer delegation, no buffer write. -/
theorem c3_invalid_args_short_circuit
    (resolve : List Char → List Char → Option (List Char))
    (muxer : Option (List Char) → Int → Int × Option (List Char) × Option Int)
    (exe_dir working_dir buffer : Option (List Char)) (buffer_size : Int)
    (req : Option Int) :
    (buffer_size < 0 ∨ (buffer_size > 0 ∧ buffer = none) →
      hostfxr_resolve_sdk resolve exe_dir working_dir buffer buffer_size =
        (-1, buffer, [Effect.traceSetup, Effect.traceInfo, Effect.traceError]) ∧
      Effect.resolverResolve ∉
        (hostfxr_resolve_sdk resolve exe_dir working_dir buffer buffer_size).2.2) ∧
    (buffer_size < 0 ∨ (buffer_size > 0 ∧ buffer = none) ∨ req = none →
      hostfxr_get_native_search_directories muxer buffer buffer_size req =
        (StatusCode.InvalidArgFailure, buffer, req,
          [Effect.traceSetup, Effect.traceInfo, Effect.traceError]) ∧
      Effect.muxerExecute ∉
        (hostfxr_get_native_search_directories muxer buffer buffer_size req).2.2.2) := by
  constructor
  · intro hbad
    rw [resolve_sdk_invalid resolve exe_dir working_dir buffer buffer_size hbad]
    exact ⟨rfl, by simp⟩
  · intro hbad
    rw [get_native_search_directories_invalid muxer buffer buffer_size req hbad]
    exact ⟨rfl, by simp⟩

/-- C3 witness: `buffer_size = -5` short-circuits both operations. -/
theorem c3_invalid_args_short_circuit_witness :
    (hostfxr_resolve_sdk (fun _ _ => some ['a']) none none none (-5)).1 = -1 ∧
    (hostfxr_get_native_search_directories
        (fun b _ => (StatusCode.Success, b, some 0)) none (-5) (some 0)).1 =
      StatusCode.InvalidArgFailure := by
  have h := c3_invalid_args_short_circuit (fun _ _ => some ['a'])
    (fun b _ => (StatusCode.Success, b, some 0)) none none none (-5) (some 0)
  have h1 := h.1 (Or.inl (by decide))
  have h2 := h.2 (Or.inl (by decide))
  exact ⟨by rw [h1.1], by rw [h2.1]⟩

/-- C4: a successful `hostfxr_resolve_sdk` call (positive result `r` with
`r ≤ buffer_size`) found a path and wrote it; repeating the call with the
same resolver state, the same directories and `buffer_size` exactly `r`
returns the same `r` and writes the identical null-terminated string. -/
theorem c4_retry_reproduces
    (resolve : List Char → List Char → Option (List Char))
    (exe_dir working_dir buffer : Option (List Char)) (buffer_size : Int)
    (b2 : List Char)
    (h1 : 0 < (hostfxr_resolve_sdk resolve exe_dir working_dir buffer buffer_size).1)
    (h2 : (hostfxr_resolve_sdk resolve exe_dir working_dir buffer buffer_size).1 ≤
      buffer_size) :
    ∃ path b1,
      resolve (exe_dir.getD []) (working_dir.getD []) = some path ∧
      buffer = some b1 ∧
      (hostfxr_resolve_sdk resolve exe_dir working_dir buffer buffer_size).1 =
        (path.length : Int) + 1 ∧
      (hostfxr_resolve_sdk resolve exe_dir working_dir (some b2)
          ((path.length : Int) + 1)).1 = (path.length : Int) + 1 ∧
      (hostfxr_resolve_sdk resolve exe_dir working_dir buffer buffer_size).2.1 =
        some (bufWrite b1 path) ∧
      (hostfxr_resolve_sdk resolve exe_dir working_dir (some b2)
          ((path.length : Int) + 1)).2.1 = some (bufWrite b2 path) ∧
      (bufWrite b1 path).take (path.length + 1) = path ++ [nullChar] ∧
      (bufWrite b2 path).take (path.length + 1) = path ++ [nullChar] := by
  by_cases hbad : buffer_size < 0 ∨ (buffer_size > 0 ∧ buffer = none)
  · have hm : (hostfxr_resolve_sdk resolve exe_dir working_dir buffer buffer_size).1 =
        -1 := by
      rw [resolve_sdk_invalid resolve exe_dir working_dir buffer buffer_size hbad]
    omega
  · cases hresolve : resolve (exe_dir.getD []) (working_dir.getD []) with
    | none =>
        have hm : (hostfxr_resolve_sdk resolve exe_dir working_dir buffer
            buffer_size).1 = 0 := by
          simp [hostfxr_resolve_sdk, if_neg hbad, hresolve]
        omega
    | some path =>
        have hr1 :
            (hostfxr_resolve_sdk resolve exe_dir working_dir buffer buffer_size).1 =
              (path.length : Int) + 1 := by
          by_cases hlt : (path.length : Int) < buffer_size <;>
            simp [hostfxr_resolve_sdk, if_neg hbad, hresolve, hlt]
        have hfit : (path.length : Int) + 1 ≤ buffer_size := by
          rw [hr1] at h2; exact h2
        have hbs : 0 ≤ buffer_size := by
          have : (0 : Int) ≤ (path.length : Int) := Int.ofNat_nonneg _
          omega
        have hbuf : 0 < buffer_size → buffer ≠ none := by
          intro hpos hnone
          exact hbad (Or.inr ⟨hpos, hnone⟩)
        obtain ⟨b1, hb1, _, hw1, htake1⟩ :=
          (resolve_sdk_capacity_frame resolve exe_dir working_dir buffer buffer_size
            path hbs hbuf hresolve).2 hfit
        obtain ⟨b2x, hb2, hr2, hw2, htake2⟩ :=
          (resolve_sdk_capacity_frame resolve exe_dir working_dir (some b2)
            ((path.length : Int) + 1) path
            (by have : (0 : Int) ≤ (path.length : Int) := Int.ofNat_nonneg _; omega)
            (fun _ h => by cases h) (hresolve)).2 le_rfl
        cases hb2
        exact ⟨path, b1, rfl, hb1, hr1, hr2, hw1, hw2, htake1, htake2⟩

/-- C4 witness: a first call with capacity 5 for path `ab`, retried with
the reported capacity 3, reproduces `ab` plus terminator. -/
theorem c4_retry_reproduces_witness :
    (hostfxr_resolve_sdk (fun _ _ => some ['a', 'b']) none none
        (some ['v', 'w', 'x', 'y', 'z']) 5).1 = 3 ∧
    (hostfxr_resolve_sdk (fun _ _ => some ['a', 'b']) none none
        (some ['p', 'q', 'r']) 3).2.1 = some ['a', 'b', nullChar] := by
  obtain ⟨path, b1, hres, hb1, hr1, hr2, hw1, hw2, ht1, ht2⟩ :=
    c4_retry_reproduces (fun _ _ => some ['a', 'b']) none none
      (some ['v', 'w', 'x', 'y', 'z']) 5 ['p', 'q', 'r'] (by decide) (by decide)
  have hpath : path = ['a', 'b'] := by
    have h := hres
    simp only [Option.some.injEq] at h
    exact h.symm
  subst hpath
  cases hb1
  have e : ((['a', 'b'] : List Char).length : Int) + 1 = 3 := by decide
  rw [e] at hw2
  refine ⟨by rw [hr1]; decide, ?_⟩
  rw [hw2]
  decide

/-- C5: a `hostfxr_resolve_sdk2` call invokes its callback with key
`resolved_sdk_dir` (carrying the resolved directory) exactly when the
resolver reports success, and returns `Success` exactly when the resolver
succeeds, `SdkResolverResolveFailure` otherwise. -/
theorem c5_resolve_sdk2_success_protocol
    (resolve2 : List Char → List Char → Bool → SdkResolveOutcome)
    (exe_dir working_dir : Option (List Char)) (flags : Nat) :
    ((∃ v, (Sdk2Key.resolved_sdk_dir, v) ∈
        (hostfxr_resolve_sdk2 resolve2 exe_dir working_dir flags).2) ↔
      (sdk2_outcome resolve2 exe_dir working_dir flags).success = true) ∧
    ((sdk2_outcome resolve2 exe_dir working_dir flags).success = true →
      (Sdk2Key.resolved_sdk_dir,
          (sdk2_outcome resolve2 exe_dir working_dir flags).resolved_sdk_dir) ∈
        (hostfxr_resolve_sdk2 resolve2 exe_dir working_dir flags).2) ∧
    ((hostfxr_resolve_sdk2 resolve2 exe_dir working_dir flags).1 =
        StatusCode.Success ↔
      (sdk2_outcome resolve2 exe_dir working_dir flags).success = true) ∧
    ((sdk2_outcome resolve2 exe_dir working_dir flags).success = false →
      (hostfxr_resolve_sdk2 resolve2 exe_dir working_dir flags).1 =
        StatusCode.SdkResolverResolveFailure) := by
  simp only [hostfxr_resolve_sdk2]
  cases hsucc : (sdk2_outcome resolve2 exe_dir working_dir flags).success <;>
    cases hemp :
      (sdk2_outcome resolve2 exe_dir working_dir flags).global_json_path.isEmpty <;>
      simp [hsucc, hemp,
        show StatusCode.SdkResolverResolveFailure ≠ StatusCode.Success from by decide]

/-- C5 witness: a succeeding resolver yields the `resolved_sdk_dir`
invocation and `Success`; the status equivalence is instantiated. -/
theorem c5_resolve_sdk2_success_protocol_witness :
    (Sdk2Key.resolved_sdk_dir, ['s']) ∈
      (hostfxr_resolve_sdk2 (fun _ _ _ => ⟨true, ['s'], []⟩) none none 0).2 ∧
    (hostfxr_resolve_sdk2 (fun _ _ _ => ⟨true, ['s'], []⟩) none none 0).1 =
      StatusCode.Success := by
  have h := c5_resolve_sdk2_success_protocol (fun _ _ _ => ⟨true, ['s'], []⟩)
    none none 0
  exact ⟨h.2.1 rfl, h.2.2.1.mpr rfl⟩

/-- C6: a `hostfxr_resolve_sdk2` call invokes its callback with key
`global_json_path` exactly when a discovered global.json constrained the
resolution outcome (resolver contract modelled from the spec); in
particular when no global.json is present the callback never fires with
that key. -/
theorem c6_global_json_callback_iff_constraining
    (resolve2 : List Char → List Char → Bool → SdkResolveOutcome)
    (exe_dir working_dir : Option (List Char)) (flags : Nat)
    (globalJsonPresent constrainedOutcome : Bool)
    (hc : ResolverGlobalJsonContract (sdk2_outcome resolve2 exe_dir working_dir flags)
      globalJsonPresent constrainedOutcome) :
    ((∃ v, (Sdk2Key.global_json_path, v) ∈
        (hostfxr_resolve_sdk2 resolve2 exe_dir working_dir flags).2) ↔
      constrainedOutcome = true) ∧
    (globalJsonPresent = false →
      ∀ v, (Sdk2Key.global_json_path, v) ∉
        (hostfxr_resolve_sdk2 resolve2 exe_dir working_dir flags).2) := by
  have hfire : (∃ v, (Sdk2Key.global_json_path, v) ∈
      (hostfxr_resolve_sdk2 resolve2 exe_dir working_dir flags).2) ↔
      (sdk2_outcome resolve2 exe_dir working_dir flags).global_json_path ≠ [] := by
    simp only [hostfxr_resolve_sdk2]
    cases hsucc : (sdk2_outcome resolve2 exe_dir working_dir flags).success <;>
      cases hemp :
        (sdk2_outcome resolve2 exe_dir working_dir flags).global_json_path.isEmpty <;>
        simp_all [List.isEmpty_iff]
  constructor
  · rw [hfire]
    exact hc.path_iff_constrained
  · intro hnopresent v hmem
    have hconstr : constrainedOutcome = true :=
      hc.path_iff_constrained.mp (hfire.mp ⟨v, hmem⟩)
    rw [hc.constrained_implies_present hconstr] at hnopresent
    exact Bool.noConfusion hnopresent

/-- C6 witness: resolver outcome with no global.json discovered — the
callback never fires with `global_json_path`. -/
theorem c6_global_json_callback_iff_constraining_witness :
    (Sdk2Key.global_json_path, ['g']) ∉
      (hostfxr_resolve_sdk2 (fun _ _ _ => ⟨true, ['s'], []⟩) none none 0).2 := by
  have h := c6_global_json_callback_iff_constraining
    (fun _ _ _ => ⟨true, ['s'], []⟩) none none 0 false false
    ⟨by simp [sdk2_outcome], by simp⟩
  exact h.2 rfl ['g']

/-- C10: when the resolver fails but still reports a non-empty
global.json path, `hostfxr_resolve_sdk2` nevertheless invokes the
callback with key `global_json_path` and then returns
`SdkResolverResolveFailure`: that invocation is not gated on overall
success. -/
theorem c10_global_json_callback_not_gated
    (resolve2 : List Char → List Char → Bool → SdkResolveOutcome)
    (exe_dir working_dir : Option (List Char)) (flags : Nat)
    (hfail : (sdk2_outcome resolve2 exe_dir working_dir flags).success = false)
    (hpath : (sdk2_outcome resolve2 exe_dir working_dir flags).global_json_path ≠ []) :
    (Sdk2Key.global_json_path,
        (sdk2_outcome resolve2 exe_dir working_dir flags).global_json_path) ∈
      (hostfxr_resolve_sdk2 resolve2 exe_dir working_dir flags).2 ∧
    (hostfxr_resolve_sdk2 resolve2 exe_dir working_dir flags).1 =
      StatusCode.SdkResolverResolveFailure := by
  have hemp : (sdk2_outcome resolve2 exe_dir working_dir
      flags).global_json_path.isEmpty = false := by
    simp [List.isEmpty_iff, hpath]
  simp [hostfxr_resolve_sdk2, hfail, hemp]

/-- C10 witness: failed resolution with global.json path `g`. -/
theorem c10_global_json_callback_not_gated_witness :
    (Sdk2Key.global_json_path, ['g']) ∈
      (hostfxr_resolve_sdk2 (fun _ _ _ => ⟨false, [], ['g']⟩) none none 0).2 ∧
    (hostfxr_resolve_sdk2 (fun _ _ _ => ⟨false, [], ['g']⟩) none none 0).1 =
      StatusCode.SdkResolverResolveFailure := by
  have h := c10_global_json_callback_not_gated
    (fun _ _ _ => ⟨false, [], ['g']⟩) none none 0 rfl (by decide)
  exact h

/-- C7: every `hostfxr_get_available_sdks` call returns `Success` and
invokes its callback exactly once: with the discovered SDK paths ordered
ascending by semantic version when at least one SDK exists, or with count
0 and a null array when none exist. -/
theorem c7_available_sdks_single_ordered_callback (discovered : List sdk_info) :
    (hostfxr_get_available_sdks discovered).1 = StatusCode.Success ∧
    (hostfxr_get_available_sdks discovered).2.length = 1 ∧
    ∃ l, List.Perm l discovered ∧ List.Sorted sdkLe l ∧
      (hostfxr_get_available_sdks discovered).2 =
        (if l.isEmpty then [((0 : Int), (none : Option (List (List Char))))]
         else [((l.length : Int), some (l.map sdk_info.full_path))]) := by
  refine ⟨rfl, ?_, List.insertionSort sdkLe discovered,
    List.perm_insertionSort sdkLe discovered,
    List.sorted_insertionSort sdkLe discovered, rfl⟩
  simp only [hostfxr_get_available_sdks, get_all_sdk_infos]
  by_cases h : (List.insertionSort sdkLe discovered).isEmpty <;> simp [h]

end HostFxr
